import Mathlib

/-!
# Verification of the IMAP ingestion control plane

Shallow embedding of the core components of the ingestion service:
the polling scheduler (`polling-scheduler.service.ts`), the worker pool
(`worker-pool.service.ts`), the IMAP worker's fetch-and-parse flow
(`imap-worker.service.ts`), the SQS sink adapter (`aws-sqs.ts`) and the
status store adapter (`supabase-database.service.ts`).  Wall-clock
times are modelled as epoch milliseconds (`Nat`), JavaScript numbers
used as fractional rates as `Rat`, and JavaScript's falsy-string
semantics (`'' || d`, `filter(Boolean)`) by explicit helpers.
-/

namespace Ingest

/-- JavaScript `s || d` on strings: the empty string is falsy. -/
def jsOr (s d : String) : String := if s = "" then d else s

/-- `s || d` is the identity when `s` is non-empty. -/
theorem jsOr_of_ne (s d : String) (h : s ≠ "") : jsOr s d = s := by
  simp [jsOr, h]

/-- JavaScript `arr.filter(Boolean)` over an array of possibly-missing
strings: drops `undefined` and the empty string. -/
def jsFilterBoolean (l : List (Option String)) : List String :=
  l.filterMap fun o =>
    match o with
    | some s => if s = "" then none else some s
    | none => none

/-! ## Scheduler data model (`polling-scheduler.service.ts`) -/

/-- Task / schedule priority tier. -/
inductive Priority
  | high
  | medium
  | low
deriving Repr, DecidableEq

/-- Observed email volume tier. -/
inductive Volume
  | high
  | medium
  | low
deriving Repr, DecidableEq

/-- `PollingSchedule` record (fields the control logic reads and
writes; the embedded `account` is reduced to the IMAP host, which is
all `detectIdleSupport` consults). -/
structure Schedule where
  accountId : String
  imapHost : String
  priority : Priority
  interval : Nat
  lastPolled : Nat
  nextPoll : Nat
  emailVolume : Volume
  successRate : Rat
  consecutiveFailures : Nat
  maxFailures : Nat
  isActive : Bool
  supportsIdle : Bool
  idleEnabled : Bool
  lastIdleAttempt : Nat
  idleFailures : Nat
  maxIdleFailures : Nat
deriving Repr, DecidableEq

/-- `baseIntervals` of the scheduler. -/
def baseInterval : Priority → Nat
  | .high => 60000
  | .medium => 300000
  | .low => 900000

/-- Character-wise lowercase (JavaScript `toLowerCase` on ASCII
hostnames), stated over the underlying character list so the kernel
can evaluate it. -/
def strToLower (s : String) : String := ⟨s.data.map Char.toLower⟩

/-- Substring test, JavaScript `host.includes(provider)`. -/
def strIncludes (host provider : String) : Bool :=
  decide (provider.toList <:+: host.toList)

/-- `PollingScheduler.detectIdleSupport`: deny-list wins, then the
known-good list, unknown hosts default to `true`. -/
def detectIdleSupport (imapHost : String) : Bool :=
  let host := strToLower imapHost
  let idleSupportingProviders := ["gmail.com", "outlook.office365.com",
    "imap.mail.yahoo.com", "zoho.com", "protonmail.com"]
  let nonIdleProviders := ["mailscale.com", "shared-hosting.com", "cpanel.com"]
  if nonIdleProviders.any (fun p => strIncludes host p) then false
  else if idleSupportingProviders.any (fun p => strIncludes host p) then true
  else true

/-- `PollingScheduler.addAccount`: the freshly created schedule entry
(`now` is `Date.now()`). -/
def addAccountSchedule (accountId imapHost : String) (priority : Priority)
    (now : Nat) : Schedule :=
  let supported := detectIdleSupport imapHost
  { accountId := accountId
    imapHost := imapHost
    priority := priority
    interval := baseInterval priority
    lastPolled := 0
    nextPoll := now + baseInterval priority
    emailVolume := .low
    successRate := 1
    consecutiveFailures := 0
    maxFailures := 3
    isActive := true
    supportsIdle := supported
    idleEnabled := supported
    lastIdleAttempt := 0
    idleFailures := 0
    maxIdleFailures := 3 }

/-- The task kind `executePoll` emits on its success path: `idle` when
IDLE is enabled and supported and the last IDLE attempt is more than
5 minutes old, else `poll`. -/
def pollTaskKind (s : Schedule) (now : Nat) : Bool :=
  s.idleEnabled && s.supportsIdle && decide (now - s.lastIdleAttempt > 300000)

/-- `PollingScheduler.executePoll`, try-branch (the enqueue to the
worker pool succeeded).  On an `idle` task only `lastIdleAttempt`
moves; on a `poll` task the schedule is marked polled. -/
def executePollSuccess (s : Schedule) (now : Nat) : Schedule :=
  if pollTaskKind s now then
    { s with lastIdleAttempt := now }
  else
    { s with lastPolled := now
             nextPoll := now + s.interval
             consecutiveFailures := 0
             successRate := min 1 (s.successRate + 1/10) }

/-- `PollingScheduler.handleAccountFailure`: quarantine — interval
doubles capped at one hour, priority demoted to `low`. -/
def handleAccountFailure (s : Schedule) (now : Nat) : Schedule :=
  let newInterval := min (s.interval * 2) 3600000
  { s with interval := newInterval
           nextPoll := now + newInterval
           priority := .low }

/-- First mutations of the `executePoll` catch-branch: bump
`consecutiveFailures` and drop `successRate` by 0.2 floored at 0. -/
def pollFailureCount (s : Schedule) : Schedule :=
  { s with consecutiveFailures := s.consecutiveFailures + 1
           successRate := max 0 (s.successRate - 1/5) }

/-- IDLE bookkeeping of the `executePoll` catch-branch: when IDLE was
enabled and supported, bump `idleFailures` and disable IDLE at
`maxIdleFailures`. -/
def pollFailureIdle (s1 : Schedule) : Schedule :=
  if s1.idleEnabled && s1.supportsIdle then
    let f := s1.idleFailures + 1
    { s1 with idleFailures := f
              idleEnabled := if f ≥ s1.maxIdleFailures then false else s1.idleEnabled }
  else s1

/-- `PollingScheduler.executePoll`, catch-branch: the two mutation
stages, then either quarantine (at `maxFailures`) or exponential
backoff capped at 5 minutes. -/
def executePollFailure (s : Schedule) (now : Nat) : Schedule :=
  let s2 := pollFailureIdle (pollFailureCount s)
  if s2.consecutiveFailures ≥ s2.maxFailures then
    handleAccountFailure s2 now
  else
    { s2 with nextPoll := now + min (s2.interval * 2 ^ s2.consecutiveFailures) 300000 }

/-- `PollingScheduler.handleIdleTaskCompletion`. -/
def handleIdleTaskCompletion (s : Schedule) (success : Bool) (now : Nat) :
    Schedule :=
  if success then
    { s with idleFailures := 0
             idleEnabled := true
             nextPoll := now + 60000 }
  else
    let f := s.idleFailures + 1
    if f ≥ s.maxIdleFailures then
      { s with idleFailures := f
               idleEnabled := false
               nextPoll := now + 30000 }
    else
      { s with idleFailures := f
               nextPoll := now + min (60000 * 2 ^ f) 300000 }

/-- `PollingScheduler.setIdleEnabled`: no-op when the schedule does not
support IDLE; on enable resets `idleFailures` and, when freshly
enabled, schedules an attempt 30 s out. -/
def setIdleEnabled (s : Schedule) (enabled : Bool) (now : Nat) : Schedule :=
  if !s.supportsIdle then s
  else
    let oldEnabled := s.idleEnabled
    let s1 := { s with idleEnabled := enabled
                       idleFailures := if enabled then 0 else s.idleFailures }
    if enabled && !oldEnabled then { s1 with nextPoll := now + 30000 }
    else s1

/-- States of one schedule entry reachable through the scheduler's
operations, starting from `addAccount`. -/
inductive ReachableSchedule : Schedule → Prop
  | add (accountId imapHost : String) (p : Priority) (now : Nat) :
      ReachableSchedule (addAccountSchedule accountId imapHost p now)
  | setIdle {s} (enabled : Bool) (now : Nat) :
      ReachableSchedule s → ReachableSchedule (setIdleEnabled s enabled now)
  | idleDone {s} (success : Bool) (now : Nat) :
      ReachableSchedule s → ReachableSchedule (handleIdleTaskCompletion s success now)
  | pollOk {s} (now : Nat) :
      ReachableSchedule s → ReachableSchedule (executePollSuccess s now)
  | pollFail {s} (now : Nat) :
      ReachableSchedule s → ReachableSchedule (executePollFailure s now)

/-- The §3 invariant: IDLE may be enabled only where supported. -/
def IdleInv (s : Schedule) : Prop :=
  s.idleEnabled = true → s.supportsIdle = true

/-! ## IMAP fetch results and parsing (`imap-worker.service.ts`) -/

/-- One address of an IMAP envelope (`address` may be absent, as in
imapflow's `EnvelopeAddress`). -/
structure ImapAddress where
  address : Option String
deriving Repr, DecidableEq

/-- The IMAP `ENVELOPE` structure as `parseEmail` reads it.  `from'`
and `to'` stand for the `from` / `to` fields (reserved words in Lean);
`date` is epoch milliseconds. -/
structure ImapEnvelope where
  messageId : Option String
  inReplyTo : Option String
  references : Option (List String)
  from' : Option (List ImapAddress)
  to' : Option (List ImapAddress)
  subject : Option String
  date : Option Nat
deriving Repr, DecidableEq

/-- A FETCH'd message: UID, optional envelope, optional raw source. -/
structure FetchMessage where
  uid : Nat
  envelope : Option ImapEnvelope
  source : Option String
deriving Repr, DecidableEq

/-- The record `parseEmail` returns (the normalized Envelope).
`timestamp` keeps the epoch milliseconds whose ISO rendering the
source stores. -/
structure ParsedEmail where
  accountId : String
  messageId : String
  internalMessageId : String
  threadId : String
  inReplyTo : String
  references : List String
  from' : String
  to' : List String
  subject : String
  text : String
  receivedAt : Nat
  timestamp : Nat
  isReply : Bool
deriving Repr, DecidableEq

/-- The synthesized internal id `accountId_uid_wallMs`. -/
def mkInternalMessageId (accountId : String) (uid nowMs : Nat) : String :=
  accountId ++ "_" ++ toString uid ++ "_" ++ toString nowMs

/-- `ImapWorker.parseEmail` with `Date.now()` = `nowMs`. -/
def parseEmail (m : FetchMessage) (accountId : String) (nowMs : Nat) :
    ParsedEmail :=
  match m.envelope with
  | none =>
      { accountId := accountId
        messageId := ""
        internalMessageId := mkInternalMessageId accountId m.uid nowMs
        threadId := ""
        inReplyTo := ""
        references := []
        from' := ""
        to' := []
        subject := ""
        text := (m.source.getD "")
        receivedAt := nowMs
        timestamp := nowMs
        isReply := false }
  | some envelope =>
      let fromAddress :=
        match envelope.from' with
        | some (a :: _) => a.address.getD ""
        | _ => ""
      let toAddresses := jsFilterBoolean ((envelope.to'.getD []).map (·.address))
      let originalMessageId := envelope.messageId.getD ""
      let inReplyTo := envelope.inReplyTo.getD ""
      let references := envelope.references.getD []
      let isReply := decide (inReplyTo ≠ "") || decide (references.length > 0)
      { accountId := accountId
        messageId := originalMessageId
        internalMessageId := mkInternalMessageId accountId m.uid nowMs
        threadId := inReplyTo
        inReplyTo := inReplyTo
        references := references
        from' := fromAddress
        to' := toAddresses
        subject := envelope.subject.getD ""
        text := (m.source.getD "")
        receivedAt := envelope.date.getD nowMs
        timestamp := envelope.date.getD nowMs
        isReply := isReply }

/-- The queue payload built from a parsed message
(`type: 'email_reply'` with the parsed data). -/
structure QueuePayload where
  type : String
  data : ParsedEmail
deriving Repr, DecidableEq

/-- The payload `processNewMessages` pushes for one parsed message. -/
def mkQueuePayload (e : ParsedEmail) : QueuePayload :=
  { type := "email_reply", data := e }

/-- The per-message filter of `processNewMessages`: parse every fetched
message and keep it unless `messageId` or `internalMessageId` is falsy
(the skip logged as "missing required fields"). -/
def processMessages (msgs : List FetchMessage) (accountId : String)
    (nowMs : Nat) : List QueuePayload :=
  msgs.filterMap fun m =>
    let emailData := parseEmail m accountId nowMs
    if emailData.messageId = "" || emailData.internalMessageId = "" then none
    else some (mkQueuePayload emailData)

/-! ## Watermark handling of the poll task (`executePollTask`) -/

/-- `ImapWorker.getLastProcessedCount`: the source is a placeholder
that always returns 0 ("return 0 to process all messages"),
consulting no store. -/
def getLastProcessedCount (_accountId : String) : Nat := 0

/-- What one poll does with the watermark: the contiguous range of
sequence numbers fetched and submitted, and the watermark left in the
store.  `storedWatermark` is the persisted watermark before the poll;
`updateLastProcessedCount` is a placeholder that persists nothing, so
the store comes back unchanged. -/
structure PollRangeResult where
  processedRange : Option (Nat × Nat)
  storedWatermark : Option Nat
deriving Repr, DecidableEq

/-- The watermark logic of `ImapWorker.executePollTask` for a mailbox
whose INBOX reports `existsCount` messages. -/
def executePollRange (accountId : String) (existsCount : Nat)
    (storedWatermark : Option Nat) : PollRangeResult :=
  let lastProcessedCount := getLastProcessedCount accountId
  if existsCount > lastProcessedCount then
    { processedRange := some (lastProcessedCount + 1, existsCount)
      storedWatermark := storedWatermark }
  else
    { processedRange := none
      storedWatermark := storedWatermark }

/-- Number of messages a poll fetches and submits. -/
def processedCount (r : PollRangeResult) : Nat :=
  match r.processedRange with
  | some (a, b) => b + 1 - a
  | none => 0

/-! ## Worker pool (`worker-pool.service.ts`) -/

/-- Task kind. -/
inductive TaskKind
  | poll
  | idle
  | healthCheck
deriving Repr, DecidableEq

/-- A queued `WorkerTask` (fields the queue logic reads). -/
structure WorkerTask where
  accountId : String
  priority : Priority
  type : TaskKind
  retryCount : Nat
  maxRetries : Nat
deriving Repr, DecidableEq

/-- `WorkerPool.getPriorityWeight`. -/
def getPriorityWeight : Priority → Nat
  | .high => 3
  | .medium => 2
  | .low => 1

/-- `WorkerPool.addTask`: find the first queued task of strictly lower
priority weight and splice the new task in front of it; if none,
append.  The function never fails and never consults any size limit
(`config.workerPool.taskQueueSize` is defined but unused). -/
def addTask (queue : List WorkerTask) (t : WorkerTask) : List WorkerTask :=
  match queue.findIdx? (fun q => getPriorityWeight q.priority < getPriorityWeight t.priority) with
  | none => queue ++ [t]
  | some i => queue.insertIdx i t

/-- Worker status. -/
inductive WorkerStatus
  | idle
  | busy
  | error
deriving Repr, DecidableEq

/-- Per-worker bookkeeping (`WorkerStats`). -/
structure WorkerRec where
  status : WorkerStatus
  currentTask : Option WorkerTask
  lastActivity : Nat
deriving Repr, DecidableEq

/-- Pool state touched by the health check. -/
structure PoolState where
  workers : List WorkerRec
  taskQueue : List WorkerTask
  activeWorkers : Int
deriving Repr, DecidableEq

/-- The stuck-worker branch of `WorkerPool.performHealthCheck` for one
worker.  The source clears `worker.currentTask` *before* testing
`if (worker.currentTask)`, so the re-queue branch reads the already
cleared field. -/
def resetStuckWorker (w : WorkerRec) (queue : List WorkerTask)
    (active : Int) (now workerTimeout : Nat) :
    WorkerRec × List WorkerTask × Int :=
  if now - w.lastActivity > workerTimeout ∧ w.status = .busy then
    let w' : WorkerRec := { w with status := .idle, currentTask := none }
    let active' := active - 1
    let queue' :=
      match w'.currentTask with
      | some t => t :: queue
      | none => queue
    (w', queue', active')
  else (w, queue, active)

/-- `WorkerPool.performHealthCheck`: sweep all workers through
`resetStuckWorker`. -/
def performHealthCheck (p : PoolState) (now workerTimeout : Nat) : PoolState :=
  let step := p.workers.foldl
    (fun (acc : List WorkerRec × List WorkerTask × Int) w =>
      let (w', q', a') := resetStuckWorker w acc.2.1 acc.2.2 now workerTimeout
      (acc.1 ++ [w'], q', a'))
    ([], p.taskQueue, p.activeWorkers)
  { workers := step.1, taskQueue := step.2.1, activeWorkers := step.2.2 }

/-! ## SQS sink adapter (`aws-sqs.ts`) -/

/-- One submission to the queue sink.  `payload` stands for the
serialized body (`JSON.stringify(payload)`); `entryId` is the batch
entry `Id` (empty for the single-message command, which has none). -/
structure SqsEntry where
  payload : QueuePayload
  entryId : String
  groupId : Option String
  dedupId : Option String
  attributes : List (String × String)
deriving Repr, DecidableEq

/-- The nine `MessageAttributes` both send paths build, in source
order. -/
def messageAttributes (p : QueuePayload) : List (String × String) :=
  [("MessageType", p.type),
   ("AccountId", p.data.accountId),
   ("OriginalMessageId", p.data.messageId),
   ("InternalMessageId", p.data.internalMessageId),
   ("ThreadId", jsOr p.data.threadId ""),
   ("IsReply", if p.data.isReply then "true" else "false"),
   ("HasTextContent", if p.data.text = "" then "" else "true"),
   ("TextLength", toString p.data.text.length),
   ("Timestamp", toString p.data.timestamp)]

/-- The attribute names of the sink submission contract, in the order
both send paths emit them. -/
def attributeNames : List String :=
  ["MessageType", "AccountId", "OriginalMessageId", "InternalMessageId",
   "ThreadId", "IsReply", "HasTextContent", "TextLength", "Timestamp"]

/-- `sendMessage`: the single-message command, with
`MessageGroupId = accountId || 'default'` and
`MessageDeduplicationId = accountId_Date.now()`. -/
def sendMessage (p : QueuePayload) (nowMs : Nat) : SqsEntry :=
  { payload := p
    entryId := ""
    groupId := some (jsOr p.data.accountId "default")
    dedupId := some (p.data.accountId ++ "_" ++ toString nowMs)
    attributes := messageAttributes p }

/-- `sendMessageBatch`: rejects batches over 10, otherwise builds one
entry per payload with `Id = msg_index_Date.now()` and the nine
attributes — and no `MessageGroupId` or `MessageDeduplicationId`. -/
def sendMessageBatch (ps : List QueuePayload) (nowMs : Nat) :
    Except String (List SqsEntry) :=
  if ps.length > 10 then .error "Batch size cannot exceed 10 messages"
  else .ok <| (List.range ps.length).zip ps |>.map fun ip =>
    { payload := ip.2
      entryId := "msg_" ++ toString ip.1 ++ "_" ++ toString nowMs
      groupId := none
      dedupId := none
      attributes := messageAttributes ip.2 }

/-! ## Status store adapter (`supabase-database.service.ts`) -/

/-- Persisted connection lifecycle state. -/
inductive ConnState
  | connecting
  | connected
  | idle
  | disconnected
  | error
  | reconnecting
deriving Repr, DecidableEq

/-- One row of `imap_connection_status` (the columns the
needing-reconnection query touches). -/
structure StatusRow where
  emailAccountId : String
  status : ConnState
  isActive : Bool
deriving Repr, DecidableEq

/-- `SupabaseDatabaseService.getAccountsNeedingReconnection` as a query
over the table: `isActive = true` and
`status in ('error', 'disconnected')`, projected to
`emailAccountId`. -/
def getAccountsNeedingReconnection (rows : List StatusRow) : List String :=
  (rows.filter fun r =>
      r.isActive && (r.status == .error || r.status == .disconnected)).map
    (·.emailAccountId)

/-- The lookup the spec describes, as a predicate on a row:
active and state in disconnected / error / reconnecting. -/
def NeedsReconnectionSpec (r : StatusRow) : Prop :=
  r.isActive = true ∧
    (r.status = .disconnected ∨ r.status = .error ∨ r.status = .reconnecting)

/-- The amended lookup contract: active and state in
disconnected / error (no `reconnecting`). -/
def NeedsReconnectionAmended (r : StatusRow) : Prop :=
  r.isActive = true ∧ (r.status = .disconnected ∨ r.status = .error)

/-! ## Sample inputs used by witnesses and counterexamples -/

/-- A schedule entry for a Gmail-hosted mailbox. -/
def gmailSchedule : Schedule :=
  addAccountSchedule "acct-1" "imap.gmail.com" Priority.high 0

/-- A schedule entry for a host on the IDLE deny-list
(`detectIdleSupport` returns `false` for it). -/
def mailscaleSchedule : Schedule :=
  addAccountSchedule "acct-2" "imap.mailscale.com" Priority.medium 0

/-- A fetched message carrying no IMAP envelope: `parseEmail` leaves
its `messageId` empty while still synthesizing an internal id. -/
def msgNoEnvelope : FetchMessage :=
  { uid := 5, envelope := none, source := some "raw body" }

/-- A fully populated envelope for the round-trip witness. -/
def sampleEnvelope : ImapEnvelope :=
  { messageId := some "<id-1@x>"
    inReplyTo := some "<prev@x>"
    references := some ["<r1@x>"]
    from' := some [{ address := some "alice@x.test" }]
    to' := some [{ address := some "bob@y.test" }]
    subject := some "Hello"
    date := some 1700000000000 }

/-- A fetched message carrying `sampleEnvelope`. -/
def sampleMessage : FetchMessage :=
  { uid := 42, envelope := some sampleEnvelope, source := some "raw source" }

/-- A queue payload for the sink-adapter theorems. -/
def samplePayload : QueuePayload :=
  mkQueuePayload (parseEmail sampleMessage "acct-1" 7)

/-- A low-priority task used to fill the queue. -/
def lowTask : WorkerTask :=
  { accountId := "acct-1", priority := .low, type := .poll
    retryCount := 0, maxRetries := 2 }

/-- A pool with one busy worker whose task has been running since
epoch 0. -/
def stuckPool : PoolState :=
  { workers := [{ status := .busy, currentTask := some lowTask, lastActivity := 0 }]
    taskQueue := []
    activeWorkers := 1 }

/-- Applying the success branch of `handleIdleTaskCompletion` to the
deny-listed schedule: reachable through `addAccount` followed by
`handleIdleTaskCompletion(success)`. -/
def badIdleSchedule : Schedule :=
  handleIdleTaskCompletion mailscaleSchedule true 1000

/-- A status row in state `reconnecting` for an active mailbox. -/
def reconnectingRow : StatusRow :=
  { emailAccountId := "acct-1", status := .reconnecting, isActive := true }

/-! ## Helper lemmas -/

/-- The synthesized internal id always contains an underscore, hence is
never the empty string. -/
theorem mkInternalMessageId_ne_empty (a : String) (u n : Nat) :
    mkInternalMessageId a u n ≠ "" := by
  intro h
  have := congrArg String.length h
  simp [mkInternalMessageId, String.length_append] at this
  exact absurd this.1.2 (by decide)

/-- `parseEmail` always synthesizes the internal id from account, uid
and wall time. -/
theorem parseEmail_internalMessageId (m : FetchMessage) (a : String)
    (n : Nat) :
    (parseEmail m a n).internalMessageId = mkInternalMessageId a m.uid n := by
  unfold parseEmail
  cases m.envelope <;> rfl

/-- `addTask` always grows the queue by one task. -/
theorem addTask_length (q : List WorkerTask) (t : WorkerTask) :
    (addTask q t).length = q.length + 1 := by
  unfold addTask
  cases h : q.findIdx? (fun x => getPriorityWeight x.priority < getPriorityWeight t.priority) with
  | none => simp
  | some i =>
      have hi : i ≤ q.length := by
        have := List.findIdx?_eq_some_iff_findIdx_eq.mp h
        omega
      simp [List.length_insertIdx, hi]

/-- Fields `pollFailureIdle` leaves untouched. -/
theorem pollFailureIdle_proj (s : Schedule) :
    (pollFailureIdle s).consecutiveFailures = s.consecutiveFailures ∧
    (pollFailureIdle s).maxFailures = s.maxFailures ∧
    (pollFailureIdle s).successRate = s.successRate ∧
    (pollFailureIdle s).interval = s.interval ∧
    (pollFailureIdle s).priority = s.priority ∧
    (pollFailureIdle s).supportsIdle = s.supportsIdle := by
  unfold pollFailureIdle
  split <;> simp

/-- `pollFailureIdle` never turns IDLE on. -/
theorem pollFailureIdle_idleEnabled (s : Schedule) :
    (pollFailureIdle s).idleEnabled = true → s.idleEnabled = true := by
  unfold pollFailureIdle
  split
  · dsimp only
    split <;> simp
  · exact fun h => h

/-- The poll-failure path never changes `supportsIdle`. -/
theorem executePollFailure_supportsIdle (s : Schedule) (now : Nat) :
    (executePollFailure s now).supportsIdle = s.supportsIdle := by
  unfold executePollFailure handleAccountFailure
  dsimp only
  split <;> simpa using (pollFailureIdle_proj (pollFailureCount s)).2.2.2.2.2

/-- The poll-failure path never turns IDLE on. -/
theorem executePollFailure_idleEnabled (s : Schedule) (now : Nat) :
    (executePollFailure s now).idleEnabled = true → s.idleEnabled = true := by
  intro h
  apply pollFailureIdle_idleEnabled (pollFailureCount s)
  unfold executePollFailure handleAccountFailure at h
  dsimp only at h
  split at h <;> simpa using h

/-- `handleIdleTaskCompletion` never changes `supportsIdle`. -/
theorem handleIdleTaskCompletion_supportsIdle (s : Schedule)
    (success : Bool) (now : Nat) :
    (handleIdleTaskCompletion s success now).supportsIdle = s.supportsIdle := by
  unfold handleIdleTaskCompletion
  dsimp only
  split_ifs <;> rfl

/-- The idle-failure branch of `handleIdleTaskCompletion` never turns
IDLE on. -/
theorem handleIdleTaskCompletion_failure_idleEnabled (s : Schedule)
    (now : Nat) :
    (handleIdleTaskCompletion s false now).idleEnabled = true →
      s.idleEnabled = true := by
  unfold handleIdleTaskCompletion
  simp only [Bool.false_eq_true, if_false]
  split <;> simp_all

/-! ## Claim theorems -/

/-- Claim C3: on every poll failure the scheduler increments
`consecutiveFailures` and lowers `successRate` by 0.2 floored at 0; if
the incremented count is at least 3 the entry is quarantined (interval
doubled capped at one hour, priority demoted to low, next poll a full
interval out), otherwise the next poll is `now + min(interval · 2^consecutiveFailures, 300 s)`. -/
theorem pollFailure_updates (s : Schedule) (now : Nat)
    (hmax : s.maxFailures = 3) :
    (executePollFailure s now).consecutiveFailures = s.consecutiveFailures + 1 ∧
    (executePollFailure s now).successRate = max 0 (s.successRate - 1/5) ∧
    (s.consecutiveFailures + 1 ≥ 3 →
      (executePollFailure s now).interval = min (s.interval * 2) 3600000 ∧
      (executePollFailure s now).nextPoll = now + min (s.interval * 2) 3600000 ∧
      (executePollFailure s now).priority = .low) ∧
    (s.consecutiveFailures + 1 < 3 →
      (executePollFailure s now).nextPoll =
        now + min (s.interval * 2 ^ (s.consecutiveFailures + 1)) 300000 ∧
      (executePollFailure s now).interval = s.interval ∧
      (executePollFailure s now).priority = s.priority) := by
  unfold executePollFailure handleAccountFailure pollFailureIdle pollFailureCount
  dsimp only
  split_ifs <;>
    refine ⟨rfl, rfl, fun hge => ?_, fun hlt => ?_⟩ <;> first
      | exact ⟨rfl, rfl, rfl⟩
      | (exfalso; dsimp only at *; omega)

/-- Witness for `pollFailure_updates` at the Gmail schedule. -/
theorem pollFailure_updates_witness :
    gmailSchedule.maxFailures = 3 ∧
    ((executePollFailure gmailSchedule 500).consecutiveFailures =
        gmailSchedule.consecutiveFailures + 1 ∧
      (executePollFailure gmailSchedule 500).successRate =
        max 0 (gmailSchedule.successRate - 1/5) ∧
      (gmailSchedule.consecutiveFailures + 1 ≥ 3 →
        (executePollFailure gmailSchedule 500).interval =
          min (gmailSchedule.interval * 2) 3600000 ∧
        (executePollFailure gmailSchedule 500).nextPoll =
          500 + min (gmailSchedule.interval * 2) 3600000 ∧
        (executePollFailure gmailSchedule 500).priority = .low) ∧
      (gmailSchedule.consecutiveFailures + 1 < 3 →
        (executePollFailure gmailSchedule 500).nextPoll =
          500 + min (gmailSchedule.interval * 2 ^ (gmailSchedule.consecutiveFailures + 1)) 300000 ∧
        (executePollFailure gmailSchedule 500).interval = gmailSchedule.interval ∧
        (executePollFailure gmailSchedule 500).priority = gmailSchedule.priority)) :=
  ⟨rfl, pollFailure_updates gmailSchedule 500 rfl⟩

/-- Claim C4: on every `idle_failed` outcome the scheduler increments
`idleFailures`; at 3 or more it disables IDLE and schedules a poll
30 s out, otherwise it backs off `min(60 s · 2^idleFailures, 300 s)`. -/
theorem idleFailure_updates (s : Schedule) (now : Nat)
    (hmax : s.maxIdleFailures = 3) :
    (handleIdleTaskCompletion s false now).idleFailures = s.idleFailures + 1 ∧
    (s.idleFailures + 1 ≥ 3 →
      (handleIdleTaskCompletion s false now).idleEnabled = false ∧
      (handleIdleTaskCompletion s false now).nextPoll = now + 30000) ∧
    (s.idleFailures + 1 < 3 →
      (handleIdleTaskCompletion s false now).idleEnabled = s.idleEnabled ∧
      (handleIdleTaskCompletion s false now).nextPoll =
        now + min (60000 * 2 ^ (s.idleFailures + 1)) 300000) := by
  unfold handleIdleTaskCompletion
  simp only [Bool.false_eq_true, if_false, hmax]
  split
  · exact ⟨rfl, fun _ => ⟨rfl, rfl⟩, fun hlt => absurd hlt (by omega)⟩
  · exact ⟨rfl, fun hge => absurd hge (by omega), fun _ => ⟨rfl, rfl⟩⟩

/-- Witness for `idleFailure_updates` at the Gmail schedule. -/
theorem idleFailure_updates_witness :
    gmailSchedule.maxIdleFailures = 3 ∧
    ((handleIdleTaskCompletion gmailSchedule false 500).idleFailures =
        gmailSchedule.idleFailures + 1 ∧
      (gmailSchedule.idleFailures + 1 ≥ 3 →
        (handleIdleTaskCompletion gmailSchedule false 500).idleEnabled = false ∧
        (handleIdleTaskCompletion gmailSchedule false 500).nextPoll = 500 + 30000) ∧
      (gmailSchedule.idleFailures + 1 < 3 →
        (handleIdleTaskCompletion gmailSchedule false 500).idleEnabled =
          gmailSchedule.idleEnabled ∧
        (handleIdleTaskCompletion gmailSchedule false 500).nextPoll =
          500 + min (60000 * 2 ^ (gmailSchedule.idleFailures + 1)) 300000)) :=
  ⟨rfl, idleFailure_updates gmailSchedule 500 rfl⟩

/-- Claim C8 counterexample: a schedule reachable through `addAccount`
on a deny-listed host followed by a successful-IDLE completion has
`idleEnabled = true` while `supportsIdle = false` — the success branch
of `handleIdleTaskCompletion` re-enables IDLE unconditionally. -/
theorem idleInv_violated_reachable :
    ReachableSchedule badIdleSchedule ∧
    badIdleSchedule.idleEnabled = true ∧
    badIdleSchedule.supportsIdle = false :=
  ⟨ReachableSchedule.idleDone true 1000
      (ReachableSchedule.add "acct-2" "imap.mailscale.com" Priority.medium 0),
    by decide, by decide⟩

/-- Claim C8 (amended): `idleEnabled → supportsIdle` is established by
`addAccount` and preserved by `setIdleEnabled`, `executePoll` (both
branches) and idle-failure completion; a successful-IDLE completion
preserves it only for entries whose `supportsIdle` is true. -/
theorem idleInv_preservation (s : Schedule) (enabled : Bool)
    (accountId imapHost : String) (p : Priority)
    (n1 n2 n3 n4 n5 n6 : Nat) (hInv : IdleInv s) :
    IdleInv (addAccountSchedule accountId imapHost p n1) ∧
    IdleInv (setIdleEnabled s enabled n2) ∧
    IdleInv (executePollSuccess s n3) ∧
    IdleInv (executePollFailure s n4) ∧
    IdleInv (handleIdleTaskCompletion s false n5) ∧
    (s.supportsIdle = true → IdleInv (handleIdleTaskCompletion s true n6)) := by
  unfold IdleInv at *
  refine ⟨?_, ?_, ?_, ?_, ?_, ?_⟩
  · intro h
    simpa [addAccountSchedule] using h
  · unfold setIdleEnabled
    dsimp only
    split
    · exact hInv
    · rename_i hsup
      split <;> simp_all
  · unfold executePollSuccess
    split <;> simp_all
  · intro h
    rw [executePollFailure_supportsIdle]
    exact hInv (executePollFailure_idleEnabled s n4 h)
  · intro h
    rw [handleIdleTaskCompletion_supportsIdle]
    exact hInv (handleIdleTaskCompletion_failure_idleEnabled s n5 h)
  · intro hsup _
    rw [handleIdleTaskCompletion_supportsIdle]
    exact hsup

/-- Claim C1 counterexample: a fetched message with no envelope (so no
Message-ID header) gets a non-empty synthesized internal id, yet
`processNewMessages` skips it — the validation requires *both* fields
non-empty, not either. -/
theorem processMessages_drops_synthesized_id :
    (parseEmail msgNoEnvelope "acct-1" 7).internalMessageId ≠ "" ∧
    processMessages [msgNoEnvelope] "acct-1" 7 = [] := by
  exact ⟨by decide, rfl⟩

/-- Claim C1 (amended): a fetched message is skipped if and only if its
parsed Message-ID is empty; the synthesized internal id is always
non-empty, so it never rescues nor dooms a message. -/
theorem processMessages_keeps_iff_messageId (msgs : List FetchMessage)
    (accountId : String) (nowMs : Nat) :
    processMessages msgs accountId nowMs =
      (msgs.filter fun m =>
        !((parseEmail m accountId nowMs).messageId == "")).map
        (fun m => mkQueuePayload (parseEmail m accountId nowMs)) := by
  induction msgs with
  | nil => rfl
  | cons m rest ih =>
      have hne : (parseEmail m accountId nowMs).internalMessageId ≠ "" := by
        rw [parseEmail_internalMessageId]
        exact mkInternalMessageId_ne_empty accountId m.uid nowMs
      by_cases hm : (parseEmail m accountId nowMs).messageId = "" <;>
        simp [processMessages, List.filterMap_cons, List.filter_cons, hm, hne,
          ih, processMessages] <;>
        simpa [processMessages] using ih

/-- Claim C2: on a fresh mailbox (no stored watermark) reporting
`EXISTS = 5`, the poll computes the range 1..5 — five historical
messages are fetched and submitted — and the store still holds no
watermark afterwards: `getLastProcessedCount` is a placeholder
returning 0 and `updateLastProcessedCount` persists nothing. -/
theorem fresh_poll_backfills :
    executePollRange "acct-1" 5 none =
      { processedRange := some (1, 5), storedWatermark := none } ∧
    processedCount (executePollRange "acct-1" 5 none) = 5 :=
  ⟨rfl, rfl⟩

/-- Addresses that are all present and non-empty pass JavaScript's
`filter(Boolean)` untouched. -/
theorem jsFilterBoolean_eq_filterMap (l : List ImapAddress)
    (h : l.all (fun a => !((a.address.getD "") == "")) = true) :
    jsFilterBoolean (l.map (·.address)) = l.filterMap (·.address) := by
  induction l with
  | nil => rfl
  | cons a rest ih =>
      simp only [List.all_cons, Bool.and_eq_true] at h
      obtain ⟨ha, hrest⟩ := h
      cases haddr : a.address with
      | none => simp [haddr] at ha
      | some s =>
          have hs : s ≠ "" := by simpa [haddr] using ha
          simp [jsFilterBoolean, List.filterMap_cons, haddr, hs]
          simpa [jsFilterBoolean] using ih hrest

/-- Claim C5: for a fetched message carrying an envelope with all
fields populated, the parsed Envelope reproduces Message-ID,
In-Reply-To, References, the first From address, all To addresses,
Subject and date; its text is the raw source; and `isReply` holds iff
In-Reply-To or References is non-empty. -/
theorem parseEmail_roundtrip
    (m : FetchMessage) (acc : String) (now : Nat) (env : ImapEnvelope)
    (mid irt subj src fa : String) (refs : List String)
    (a1 : ImapAddress) (frest tos : List ImapAddress) (d : Nat)
    (henv : m.envelope = some env)
    (hmid : env.messageId = some mid)
    (hirt : env.inReplyTo = some irt)
    (hrefs : env.references = some refs)
    (hfrom : env.from' = some (a1 :: frest))
    (hfa : a1.address = some fa)
    (hto : env.to' = some tos)
    (htos : tos.all (fun a => !((a.address.getD "") == "")) = true)
    (hsubj : env.subject = some subj)
    (hdate : env.date = some d)
    (hsrc : m.source = some src) :
    (parseEmail m acc now).messageId = mid ∧
    (parseEmail m acc now).inReplyTo = irt ∧
    (parseEmail m acc now).references = refs ∧
    (parseEmail m acc now).from' = fa ∧
    (parseEmail m acc now).to' = tos.filterMap (·.address) ∧
    (parseEmail m acc now).subject = subj ∧
    (parseEmail m acc now).receivedAt = d ∧
    (parseEmail m acc now).text = src ∧
    ((parseEmail m acc now).isReply = true ↔ (irt ≠ "" ∨ refs ≠ [])) := by
  refine ⟨?_, ?_, ?_, ?_, ?_, ?_, ?_, ?_, ?_⟩ <;>
    simp only [parseEmail, henv, hmid, hirt, hrefs, hfrom, hfa, hto, hsubj,
      hdate, hsrc, Option.getD_some] <;>
    first
      | rfl
      | exact jsFilterBoolean_eq_filterMap tos htos
      | simp [Bool.or_eq_true, decide_eq_true_iff, List.length_pos]

/-- Witness for `parseEmail_roundtrip` at `sampleMessage`. -/
theorem parseEmail_roundtrip_witness :
    (sampleMessage.envelope = some sampleEnvelope ∧
      sampleEnvelope.messageId = some "<id-1@x>" ∧
      sampleEnvelope.inReplyTo = some "<prev@x>" ∧
      sampleEnvelope.references = some ["<r1@x>"] ∧
      sampleEnvelope.from' = some [{ address := some "alice@x.test" }] ∧
      ImapAddress.address { address := some "alice@x.test" } = some "alice@x.test" ∧
      sampleEnvelope.to' = some [{ address := some "bob@y.test" }] ∧
      ([({ address := some "bob@y.test" } : ImapAddress)].all
        (fun a => !((a.address.getD "") == ""))) = true ∧
      sampleEnvelope.subject = some "Hello" ∧
      sampleEnvelope.date = some 1700000000000 ∧
      sampleMessage.source = some "raw source") ∧
    ((parseEmail sampleMessage "acct-1" 7).messageId = "<id-1@x>" ∧
      (parseEmail sampleMessage "acct-1" 7).inReplyTo = "<prev@x>" ∧
      (parseEmail sampleMessage "acct-1" 7).references = ["<r1@x>"] ∧
      (parseEmail sampleMessage "acct-1" 7).from' = "alice@x.test" ∧
      (parseEmail sampleMessage "acct-1" 7).to' =
        [({ address := some "bob@y.test" } : ImapAddress)].filterMap (·.address) ∧
      (parseEmail sampleMessage "acct-1" 7).subject = "Hello" ∧
      (parseEmail sampleMessage "acct-1" 7).receivedAt = 1700000000000 ∧
      (parseEmail sampleMessage "acct-1" 7).text = "raw source" ∧
      ((parseEmail sampleMessage "acct-1" 7).isReply = true ↔
        ("<prev@x>" ≠ "" ∨ (["<r1@x>"] : List String) ≠ []))) :=
  ⟨⟨rfl, rfl, rfl, rfl, rfl, rfl, rfl, by decide, rfl, rfl, rfl⟩,
    parseEmail_roundtrip sampleMessage "acct-1" 7 sampleEnvelope
      "<id-1@x>" "<prev@x>" "Hello" "raw source" "alice@x.test" ["<r1@x>"]
      { address := some "alice@x.test" } [] [{ address := some "bob@y.test" }]
      1700000000000 rfl rfl rfl rfl rfl rfl rfl (by decide) rfl rfl rfl⟩

/-- Claim C6 counterexample: with the queue already holding the
configured maximum of 10,000 tasks, `addTask` neither rejects nor
leaves the queue unchanged — it inserts the task and the queue grows
to 10,001. -/
theorem addTask_full_queue_accepts :
    (addTask (List.replicate 10000 lowTask) lowTask).length = 10001 ∧
    addTask (List.replicate 10000 lowTask) lowTask ≠
      List.replicate 10000 lowTask := by
  have h := addTask_length (List.replicate 10000 lowTask) lowTask
  rw [List.length_replicate] at h
  refine ⟨h, fun he => ?_⟩
  rw [he, List.length_replicate] at h
  omega

/-- Claim C6 (amended): `addTask` always accepts the task, splicing it
into the queue by priority; no queue-size limit is enforced, so the
queue always grows by one. -/
theorem addTask_always_accepts (queue : List WorkerTask) (t : WorkerTask) :
    (addTask queue t).length = queue.length + 1 :=
  addTask_length queue t

/-- Claim C7: the health check resets a busy worker whose task exceeded
the 5-minute timeout, but the re-queue branch reads `currentTask`
*after* it was cleared, so the task is dropped: the queue stays empty
and the task survives nowhere. -/
theorem healthCheck_drops_stuck_task :
    performHealthCheck stuckPool 300001 300000 =
      { workers := [{ status := .idle, currentTask := none, lastActivity := 0 }],
        taskQueue := [],
        activeWorkers := 0 } := by
  decide

/-- Claim C9 counterexample: a batch submission's entry carries the
nine attributes but no `MessageGroupId` and no
`MessageDeduplicationId`, although the payload's mailbox id is
non-empty. -/
theorem batch_entry_missing_group_key :
    sendMessageBatch [samplePayload] 123 =
      .ok [{ payload := samplePayload
             entryId := "msg_0_123"
             groupId := none
             dedupId := none
             attributes := messageAttributes samplePayload }] ∧
    samplePayload.data.accountId = "acct-1" ∧
    (none : Option String) ≠ some "acct-1" := by
  refine ⟨rfl, by decide, by decide⟩

/-- Claim C9 (amended): the single-message path carries group key
`accountId` (falling back to `'default'` when empty) and dedup key
`accountId_wallMs` together with the nine attributes; the batch path
carries the same nine attributes but no group or deduplication key. -/
theorem sink_submission_contract (p : QueuePayload)
    (ps : List QueuePayload) (now : Nat)
    (hacc : p.data.accountId ≠ "") (hlen : ps.length ≤ 10) :
    (sendMessage p now).groupId = some p.data.accountId ∧
    (sendMessage p now).dedupId =
      some (p.data.accountId ++ "_" ++ toString now) ∧
    (sendMessage p now).attributes.map Prod.fst = attributeNames ∧
    ∃ es, sendMessageBatch ps now = .ok es ∧
      ∀ e ∈ es, e.attributes.map Prod.fst = attributeNames ∧
        e.groupId = none ∧ e.dedupId = none := by
  refine ⟨by simp [sendMessage, jsOr_of_ne _ _ hacc], rfl, rfl, ?_⟩
  refine ⟨((List.range ps.length).zip ps).map (fun ip =>
    { payload := ip.2
      entryId := "msg_" ++ toString ip.1 ++ "_" ++ toString now
      groupId := none
      dedupId := none
      attributes := messageAttributes ip.2 }), ?_, ?_⟩
  · unfold sendMessageBatch
    rw [if_neg (by omega)]
  · intro e he
    simp only [List.mem_map] at he
    obtain ⟨ip, _, rfl⟩ := he
    exact ⟨rfl, rfl, rfl⟩

/-- Witness for `sink_submission_contract` at `samplePayload`. -/
theorem sink_submission_contract_witness :
    (samplePayload.data.accountId ≠ "" ∧
      ([samplePayload] : List QueuePayload).length ≤ 10) ∧
    ((sendMessage samplePayload 9).groupId =
        some samplePayload.data.accountId ∧
      (sendMessage samplePayload 9).dedupId =
        some (samplePayload.data.accountId ++ "_" ++ toString 9) ∧
      (sendMessage samplePayload 9).attributes.map Prod.fst = attributeNames ∧
      ∃ es, sendMessageBatch [samplePayload] 9 = .ok es ∧
        ∀ e ∈ es, e.attributes.map Prod.fst = attributeNames ∧
          e.groupId = none ∧ e.dedupId = none) :=
  ⟨⟨by decide, by decide⟩,
    sink_submission_contract samplePayload [samplePayload] 9 (by decide)
      (by decide)⟩

/-- Claim C10 counterexample: an active mailbox persisted in state
`reconnecting` satisfies the spec's needing-reconnection predicate but
the query, which filters on `status in ('error','disconnected')`,
does not return it. -/
theorem reconnecting_row_not_returned :
    NeedsReconnectionSpec reconnectingRow ∧
    getAccountsNeedingReconnection [reconnectingRow] = [] :=
  ⟨⟨rfl, Or.inr (Or.inr rfl)⟩, rfl⟩

/-- Claim C10 (amended): the lookup returns exactly the mailbox ids of
active rows whose state is disconnected or error. -/
theorem needsReconnection_members (rows : List StatusRow) (a : String) :
    a ∈ getAccountsNeedingReconnection rows ↔
      ∃ r ∈ rows, NeedsReconnectionAmended r ∧ r.emailAccountId = a := by
  simp only [getAccountsNeedingReconnection, List.mem_map, List.mem_filter,
    NeedsReconnectionAmended, Bool.and_eq_true, Bool.or_eq_true, beq_iff_eq]
  constructor
  · rintro ⟨r, ⟨hmem, hact, hst⟩, rfl⟩
    exact ⟨r, hmem, ⟨hact, hst.symm⟩, rfl⟩
  · rintro ⟨r, hmem, ⟨hact, hst⟩, rfl⟩
    exact ⟨r, ⟨hmem, hact, hst.symm⟩, rfl⟩

/-- Witness for `idleInv_preservation` at the Gmail schedule. -/
theorem idleInv_preservation_witness :
    IdleInv gmailSchedule ∧
    (IdleInv (addAccountSchedule "acct-9" "imap.example.org" .low 3) ∧
      IdleInv (setIdleEnabled gmailSchedule false 4) ∧
      IdleInv (executePollSuccess gmailSchedule 5) ∧
      IdleInv (executePollFailure gmailSchedule 6) ∧
      IdleInv (handleIdleTaskCompletion gmailSchedule false 7) ∧
      (gmailSchedule.supportsIdle = true →
        IdleInv (handleIdleTaskCompletion gmailSchedule true 8))) :=
  ⟨fun _ => by decide,
    idleInv_preservation gmailSchedule false "acct-9" "imap.example.org" .low
      3 4 5 6 7 8 (fun _ => by decide)⟩

end Ingest
